import Mathlib

/-!
Shallow embedding of the motion-interpolator repository (src/main.cpp and
src/CSVTools.h): a sequential pose-interpolation engine that slides a
two-keyframe window over a tracker CSV stream and answers timestamp queries
with an interpolated pose or a status code.

Real numbers of the C++ source (`double`) are modelled as rationals; the
32-bit integer arithmetic of `microsecondsDifference` is modelled on `Int`
with explicit wrap-around at 2^32.  The tracker `std::istream` is modelled as
a list of lines plus a good/failed flag, with a counter of line reads.
Undefined behaviour (out-of-bounds `std::vector` indexing in
`readTrackerPose`) is modelled by an `Option` layer: a query that runs into
it returns `none`.
-/

namespace MotionInterpolator

/-- The osvr TimeValue struct held by the engine: a seconds field and a
microseconds field, both signed integers. -/
structure TimeValue where
  seconds : Int
  microseconds : Int
deriving DecidableEq

/-- Modelled from the spec: ordering on timestamps is lexicographic on
(seconds, microseconds); this is the external osvr `operator<` used by
`isBeforeTrackerData` and `trackerDataNeedsAdvancing` in main.cpp. -/
def TimeValue.lt (a b : TimeValue) : Bool :=
  decide (a.seconds < b.seconds) ||
    (decide (a.seconds = b.seconds) && decide (a.microseconds < b.microseconds))

/-- An Eigen::Vector3d, components modelled as rationals. -/
structure Vector3d where
  x : ℚ
  y : ℚ
  z : ℚ
deriving DecidableEq

def Vector3d.sub (a b : Vector3d) : Vector3d :=
  ⟨a.x - b.x, a.y - b.y, a.z - b.z⟩

def Vector3d.add (a b : Vector3d) : Vector3d :=
  ⟨a.x + b.x, a.y + b.y, a.z + b.z⟩

def Vector3d.smul (t : ℚ) (v : Vector3d) : Vector3d :=
  ⟨t * v.x, t * v.y, t * v.z⟩

/-- An Eigen::Quaterniond in (w, x, y, z) component form, components modelled
as rationals. -/
structure Quaterniond where
  w : ℚ
  x : ℚ
  y : ℚ
  z : ℚ
deriving DecidableEq

/-- Euclidean inner product of two quaternions, used to talk about the angle
between orientations on the 4D unit sphere. -/
def quatDot (p q : Quaterniond) : ℚ :=
  p.w * q.w + p.x * q.x + p.y * q.y + p.z * q.z

/-- Wrap an integer into the 32-bit signed range, the effect of the
`static_cast<MicrosecIntType>` narrowing conversions in main.cpp
(MicrosecIntType = std::int32_t). -/
def wrap32 (v : Int) : Int :=
  (v + 2147483648) % 4294967296 - 2147483648

/-- microsecondsDifference from main.cpp: the seconds difference is narrowed
to int32, multiplied by std::micro::den = 1000000 (an int64 multiply), the
microseconds difference is added, and the int64 result is narrowed to the
int32 return type. -/
def microsecondsDifference (a b : TimeValue) : Int :=
  wrap32 (wrap32 (a.seconds - b.seconds) * 1000000 +
    (a.microseconds - b.microseconds))

/-- The true (unbounded) microseconds difference between two timestamps, as
the spec words it: `(Δseconds) × 1_000_000 + Δmicroseconds`.  Stated for
comparison with `microsecondsDifference`. -/
def specMicrosecondsDifference (a b : TimeValue) : Int :=
  (a.seconds - b.seconds) * 1000000 + (a.microseconds - b.microseconds)

/-- The Status enum of main.cpp. -/
inductive Status
  | BeforeRecordedTrackerData
  | Successful
  | OutOfData
  | OtherUnexpectedFailure
deriving DecidableEq

def COMMA_CHAR : Char := ','

/-- getFields from main.cpp (first = 0): split a line on commas into at most
`numFields` fields.  A field that runs to the end of the line is taken whole;
a comma at the very end of the line does not open a further field (the C++
loop re-enters only while the begin position is strictly inside the line). -/
def getFields : List Char → Nat → List (List Char)
  | _, 0 => []
  | [], _ + 1 => []
  | line, n + 1 =>
    let field := line.takeWhile (fun c => c != COMMA_CHAR)
    match line.dropWhile (fun c => c != COMMA_CHAR) with
    | [] => [field]
    | _ :: rest => field :: getFields rest n

/-- Digits of a numeral accumulated to a Nat, most significant first. -/
def digitsToNat (ds : List Char) : Nat :=
  ds.foldl (fun acc c => acc * 10 + (c.toNat - 48)) 0

/-- Modelled from the spec: istringstream extraction of a signed integer
field (simplified to optional sign plus decimal digits; a field with no
leading digits extracts the value 0, as a failed C++11 extraction
value-initializes its target). -/
def readIntField (cs : List Char) : Int :=
  let cs := cs.dropWhile (fun c => c == ' ')
  match cs with
  | '-' :: rest => -(digitsToNat (rest.takeWhile Char.isDigit) : Int)
  | '+' :: rest => (digitsToNat (rest.takeWhile Char.isDigit) : Int)
  | _ => (digitsToNat (cs.takeWhile Char.isDigit) : Int)

/-- Modelled from the spec: istringstream extraction of a double field,
simplified to plain decimal notation (sign, integer digits, optional
fractional digits), read exactly as a rational. -/
def readRatField (cs : List Char) : ℚ :=
  let cs := cs.dropWhile (fun c => c == ' ')
  let signAndRest : Bool × List Char :=
    match cs with
    | '-' :: rest => (true, rest)
    | '+' :: rest => (false, rest)
    | _ => (false, cs)
  let ds := signAndRest.2.takeWhile Char.isDigit
  let rest := signAndRest.2.dropWhile Char.isDigit
  let ip : ℚ := (digitsToNat ds : ℚ)
  let v : ℚ :=
    match rest with
    | '.' :: rest2 =>
      let fs := rest2.takeWhile Char.isDigit
      ip + (digitsToNat fs : ℚ) / ((10 : ℚ) ^ fs.length)
    | _ => ip
  if signAndRest.1 then -v else v

/-- One tracker keyframe: timestamp, translation, rotation. -/
structure Sample where
  tv : TimeValue
  xlate : Vector3d
  rot : Quaterniond
deriving DecidableEq

/-- The field extraction of readTrackerPose in main.cpp on one line:
tokenize into at most FIELDS_IN_TRACKER_DATA = 9 fields, then read fields
Sec, Usec, TX, TY, TZ as the timestamp and translation and QW, QX, QY, QZ as
the quaternion.  The source performs no field-count check: accessing a field
index beyond the end of the token vector is out-of-bounds
`std::vector::operator[]` (undefined behaviour), modelled here as `none`. -/
def parseTrackerLine (line : List Char) : Option Sample := do
  let fields := getFields line 9
  let sec ← fields.get? 0
  let usec ← fields.get? 1
  let tx ← fields.get? 2
  let ty ← fields.get? 3
  let tz ← fields.get? 4
  let qw ← fields.get? 5
  let qx ← fields.get? 6
  let qy ← fields.get? 7
  let qz ← fields.get? 8
  pure
    { tv := ⟨readIntField sec, readIntField usec⟩
      xlate := ⟨readRatField tx, readRatField ty, readRatField tz⟩
      rot := ⟨readRatField qw, readRatField qx, readRatField qy, readRatField qz⟩ }

/-- The state of a MotionSynthesizer together with its tracker istream:
the remaining input lines, the stream's good/failed flag, a counter of
getline calls (to audit reads), the two keyframes with their cached interval
data, and the done flag. -/
structure MotionState where
  lines : List (List Char)
  streamGood : Bool
  reads : Nat
  start_ : TimeValue
  startXlate_ : Vector3d
  startRot_ : Quaterniond
  end_ : TimeValue
  endXlate_ : Vector3d
  endRot_ : Quaterniond
  done_ : Bool
  intervalDuration_ : Int
  incXlate_ : Vector3d
deriving DecidableEq

/-- Result of one readTrackerPose call: a parsed sample, a clean read
failure (stream already failed, or getline failed), or undefined behaviour
(a line with fewer than 9 fields). -/
inductive ReadResult
  | ok (smp : Sample)
  | eof
  | crash
deriving DecidableEq

/-- readTrackerPose from main.cpp, on the list-of-lines model of the
tracker istream: a failed stream returns false at once without reading;
reading past the last line fails the stream (one final getline attempt);
otherwise one line is consumed and its fields extracted. -/
def readTrackerPose (s : MotionState) : ReadResult × MotionState :=
  if s.streamGood = false then (ReadResult.eof, s)
  else
    match s.lines with
    | [] => (ReadResult.eof, { s with streamGood := false, reads := s.reads + 1 })
    | line :: rest =>
      match parseTrackerLine line with
      | none => (ReadResult.crash, { s with lines := rest, reads := s.reads + 1 })
      | some smp => (ReadResult.ok smp, { s with lines := rest, reads := s.reads + 1 })

/-- updateCachedIntervalData from main.cpp: recompute the cached window span
and translation delta from the current keyframes. -/
def updateCachedIntervalData (s : MotionState) : MotionState :=
  { s with intervalDuration_ := microsecondsDifference s.end_ s.start_,
           incXlate_ := Vector3d.sub s.endXlate_ s.startXlate_ }

/-- isBeforeTrackerData from main.cpp: tv < start_. -/
def isBeforeTrackerData (s : MotionState) (tv : TimeValue) : Bool :=
  TimeValue.lt tv s.start_

/-- trackerDataNeedsAdvancing from main.cpp: end_ < tv. -/
def trackerDataNeedsAdvancing (s : MotionState) (tv : TimeValue) : Bool :=
  TimeValue.lt s.end_ tv

/-- The first three assignments of advanceTrackerData in main.cpp: the end
keyframe is shifted into the start keyframe. -/
def shiftWindow (s : MotionState) : MotionState :=
  { s with start_ := s.end_, startXlate_ := s.endXlate_,
           startRot_ := s.endRot_ }

/-- advanceTrackerData from main.cpp: shift end into start, then read a new
end keyframe; on a clean read failure set done_ and return false, on success
recompute the cached interval data and return true.  A crashing read makes
the whole run undefined (`none`). -/
def advanceTrackerData (s : MotionState) : Option (Bool × MotionState) :=
  match readTrackerPose (shiftWindow s) with
  | (ReadResult.crash, _) => none
  | (ReadResult.eof, s2) => some (false, { s2 with done_ := true })
  | (ReadResult.ok smp, s2) =>
    some (true, updateCachedIntervalData
      { s2 with end_ := smp.tv, endXlate_ := smp.xlate, endRot_ := smp.rot })

/-- The while loop of operator() in main.cpp: advance the window while
end_ < tv.  Returns (false, s) when an advance failed (the caller returns
OutOfData), (true, s) when the loop exits normally; `none` when a read ran
into undefined behaviour.  The loop terminates because every successful
advance consumes one line of the tracker stream. -/
def advanceLoop (s : MotionState) (tv : TimeValue) : Option (Bool × MotionState) :=
  if trackerDataNeedsAdvancing s tv then
    match h : advanceTrackerData s with
    | none => none
    | some (false, s') => some (false, s')
    | some (true, s') => advanceLoop s' tv
  else
    some (true, s)
termination_by s.lines.length
decreasing_by
  have key : ∀ (u u' : MotionState), advanceTrackerData u = some (true, u') →
      u'.lines.length < u.lines.length := by
    intro u u' hu
    unfold advanceTrackerData at hu
    rcases hr : readTrackerPose (shiftWindow u) with ⟨res, u2⟩
    rw [hr] at hu
    cases res with
    | crash => simp at hu
    | eof => simp at hu
    | ok smp =>
      simp only [Option.some.injEq, Prod.mk.injEq, true_and] at hu
      subst hu
      have h2 : u2.lines.length + 1 = (shiftWindow u).lines.length := by
        unfold readTrackerPose at hr
        split at hr
        · simp at hr
        · split at hr
          · simp at hr
          · split at hr
            · simp at hr
            · simp only [Prod.mk.injEq, ReadResult.ok.injEq] at hr
              obtain ⟨-, hh⟩ := hr
              subst hh
              simp_all
      simp only [updateCachedIntervalData, shiftWindow] at *
      simp at h2 ⊢
      omega
  exact key _ _ h

/-- getInterpolation from main.cpp.  The out-parameters are threaded through
explicitly: the returned vector and quaternion are the values the
out-parameters hold when the function returns.  Note lines 250-251 of the
source: `outRot = startRot_; outRot.slerp(t, endRot_);` — Eigen's slerp is a
const member returning the interpolated quaternion, so its result is
discarded and outRot keeps the value startRot_. -/
def getInterpolation (s : MotionState) (tv : TimeValue)
    (outXlate : Vector3d) (outRot : Quaterniond) :
    Bool × Vector3d × Quaterniond :=
  if tv = s.start_ then (true, s.startXlate_, s.startRot_)
  else if tv = s.end_ then (true, s.endXlate_, s.endRot_)
  else if isBeforeTrackerData s tv || trackerDataNeedsAdvancing s tv then
    (false, outXlate, outRot)
  else
    let tvSinceStart := microsecondsDifference tv s.start_
    let t : ℚ := (tvSinceStart : ℚ) / (s.intervalDuration_ : ℚ)
    (true, Vector3d.add s.startXlate_ (Vector3d.smul t s.incXlate_), s.startRot_)

/-- operator() of MotionSynthesizer in main.cpp — the spec's `query`.  The
caller's out-parameters are threaded through explicitly; the result carries
the status, the post-state, and the final values of the out-parameters.
`none` models a read that hit undefined behaviour. -/
def query (s : MotionState) (tv : TimeValue)
    (outXlate : Vector3d) (outRot : Quaterniond) :
    Option (Status × MotionState × Vector3d × Quaterniond) :=
  if isBeforeTrackerData s tv then
    some (Status.BeforeRecordedTrackerData, s, outXlate, outRot)
  else
    match advanceLoop s tv with
    | none => none
    | some (false, s') => some (Status.OutOfData, s', outXlate, outRot)
    | some (true, s') =>
      if s'.done_ then some (Status.OutOfData, s', outXlate, outRot)
      else
        match getInterpolation s' tv outXlate outRot with
        | (false, v, r) => some (Status.OtherUnexpectedFailure, s', v, r)
        | (true, v, r) => some (Status.Successful, s', v, r)

/-- The pre-read MotionSynthesizer state at entry to the constructor.  The
C++ members are indeterminate before the first reads; fixed values are used
here, and no claim observes them before they are overwritten. -/
def initState (lines : List (List Char)) : MotionState :=
  { lines := lines, streamGood := true, reads := 0,
    start_ := ⟨0, 0⟩, startXlate_ := ⟨0, 0, 0⟩, startRot_ := ⟨1, 0, 0, 0⟩,
    end_ := ⟨0, 0⟩, endXlate_ := ⟨0, 0, 0⟩, endRot_ := ⟨1, 0, 0, 0⟩,
    done_ := false, intervalDuration_ := 0, incXlate_ := ⟨0, 0, 0⟩ }

/-- The MotionSynthesizer constructor in main.cpp: read the two initial
keyframes, then cache the interval data.  `none` models both the thrown
runtime_error (fewer than two readable rows) and a crashing read. -/
def construct (lines : List (List Char)) : Option MotionState :=
  match readTrackerPose (initState lines) with
  | (ReadResult.crash, _) => none
  | (ReadResult.eof, _) => none
  | (ReadResult.ok smp, s1) =>
    let s1 := { s1 with start_ := smp.tv, startXlate_ := smp.xlate,
                        startRot_ := smp.rot }
    match readTrackerPose s1 with
    | (ReadResult.crash, _) => none
    | (ReadResult.eof, _) => none
    | (ReadResult.ok smp2, s2) =>
      some (updateCachedIntervalData
        { s2 with end_ := smp2.tv, endXlate_ := smp2.xlate,
                  endRot_ := smp2.rot })

/-- The tracker lines starting from a lower time bound `t` all parse and
carry non-decreasing timestamps: the spec's precondition of a tracker stream
ordered by timestamp. -/
def orderedFrom (t : TimeValue) : List (List Char) → Bool
  | [] => true
  | line :: rest =>
    match parseTrackerLine line with
    | none => false
    | some smp => !TimeValue.lt smp.tv t && orderedFrom smp.tv rest

/-- A whole tracker stream that parses and is ordered by timestamp. -/
def linesOrdered : List (List Char) → Bool
  | [] => true
  | line :: rest =>
    match parseTrackerLine line with
    | none => false
    | some smp => orderedFrom smp.tv rest

/-- The cached interval data agrees with what updateCachedIntervalData
would recompute from the current keyframes. -/
def cacheConsistent (s : MotionState) : Prop :=
  s.intervalDuration_ = microsecondsDifference s.end_ s.start_ ∧
  s.incXlate_ = Vector3d.sub s.endXlate_ s.startXlate_

/-- The engine's state invariant: the window is ordered
(start_.timestamp ≤ end_.timestamp), and as long as the engine is not
exhausted — the only states in which the interpolation path can read the
cache — the cached interval data is fresh. -/
def windowInv (s : MotionState) : Prop :=
  TimeValue.lt s.end_ s.start_ = false ∧
  (s.done_ = false → cacheConsistent s)

/-- The remaining tracker stream parses and is ordered, starting no earlier
than the current window end. -/
def streamOrdered (s : MotionState) : Prop :=
  orderedFrom s.end_ s.lines = true

/-- Concrete tracker record: timestamp (0s, 0µs), position (0,0,0),
orientation w=1 (identity). -/
def trackerLine1 : List Char := "0,0,0,0,0,1,0,0,0".toList

/-- Concrete tracker record: timestamp (1s, 0µs), position (1,0,0),
orientation x=1 (orthogonal to the identity on the 4D unit sphere). -/
def trackerLine2 : List Char := "1,0,1,0,0,0,1,0,0".toList

/-- A two-record tracker stream. -/
def exampleLines : List (List Char) := [trackerLine1, trackerLine2]

/-- The engine state constructed from `exampleLines`. -/
def exampleState : MotionState :=
  { lines := [], streamGood := true, reads := 2,
    start_ := ⟨0, 0⟩, startXlate_ := ⟨0, 0, 0⟩, startRot_ := ⟨1, 0, 0, 0⟩,
    end_ := ⟨1, 0⟩, endXlate_ := ⟨1, 0, 0⟩, endRot_ := ⟨0, 1, 0, 0⟩,
    done_ := false, intervalDuration_ := 1000000, incXlate_ := ⟨1, 0, 0⟩ }

/-- The spec's boundary-example window: keyframes (0s,0µs) at (0,0,0) and
(0s,500000µs) at (1,0,0), with fresh cached interval data. -/
def windowState : MotionState :=
  { lines := [], streamGood := true, reads := 2,
    start_ := ⟨0, 0⟩, startXlate_ := ⟨0, 0, 0⟩, startRot_ := ⟨1, 0, 0, 0⟩,
    end_ := ⟨0, 500000⟩, endXlate_ := ⟨1, 0, 0⟩, endRot_ := ⟨0, 1, 0, 0⟩,
    done_ := false, intervalDuration_ := 500000, incXlate_ := ⟨1, 0, 0⟩ }

/-- An exhausted engine state: the tracker stream has failed, the window has
collapsed onto the last sample, done_ is set. -/
def exhaustedState : MotionState :=
  { lines := [], streamGood := false, reads := 3,
    start_ := ⟨1, 0⟩, startXlate_ := ⟨1, 0, 0⟩, startRot_ := ⟨0, 1, 0, 0⟩,
    end_ := ⟨1, 0⟩, endXlate_ := ⟨1, 0, 0⟩, endRot_ := ⟨0, 1, 0, 0⟩,
    done_ := true, intervalDuration_ := 1000000, incXlate_ := ⟨1, 0, 0⟩ }

/-- A tracker record with only three of the nine required fields. -/
def shortLine : List Char := "1,2,3".toList

theorem TimeValue.lt_irrefl (a : TimeValue) : TimeValue.lt a a = false := by
  simp [TimeValue.lt]

theorem TimeValue.lt_asymm {a b : TimeValue} (h : TimeValue.lt a b = true) :
    TimeValue.lt b a = false := by
  simp [TimeValue.lt] at *
  omega

theorem TimeValue.lt_ne {a b : TimeValue} (h : TimeValue.lt a b = true) :
    a ≠ b := by
  simp [TimeValue.lt] at h
  intro he
  subst he
  omega

theorem TimeValue.lt_ne' {a b : TimeValue} (h : TimeValue.lt a b = true) :
    b ≠ a := fun he => TimeValue.lt_ne h he.symm

theorem wrap32_eq_self {v : Int} (h1 : -2147483648 ≤ v)
    (h2 : v < 2147483648) : wrap32 v = v := by
  unfold wrap32
  omega

theorem microsecondsDifference_eq_wrap (a b : TimeValue) :
    microsecondsDifference a b = wrap32 (specMicrosecondsDifference a b) := by
  unfold microsecondsDifference specMicrosecondsDifference wrap32
  omega

theorem microsecondsDifference_exact {a b : TimeValue}
    (h1 : -2147483648 ≤ specMicrosecondsDifference a b)
    (h2 : specMicrosecondsDifference a b < 2147483648) :
    microsecondsDifference a b = specMicrosecondsDifference a b := by
  rw [microsecondsDifference_eq_wrap]
  exact wrap32_eq_self h1 h2

theorem advanceTrackerData_ok_eq {s s' : MotionState}
    (h : advanceTrackerData s = some (true, s')) :
    ∃ line rest smp, s.streamGood = true ∧ s.lines = line :: rest ∧
      parseTrackerLine line = some smp ∧
      s' = { lines := rest, streamGood := true, reads := s.reads + 1,
             start_ := s.end_, startXlate_ := s.endXlate_,
             startRot_ := s.endRot_,
             end_ := smp.tv, endXlate_ := smp.xlate, endRot_ := smp.rot,
             done_ := s.done_,
             intervalDuration_ := microsecondsDifference smp.tv s.end_,
             incXlate_ := Vector3d.sub smp.xlate s.endXlate_ } := by
  unfold advanceTrackerData at h
  rcases hr : readTrackerPose (shiftWindow s) with ⟨res, s2⟩
  rw [hr] at h
  cases res with
  | crash => simp at h
  | eof => simp at h
  | ok smp =>
    simp only [Option.some.injEq, Prod.mk.injEq, true_and] at h
    subst h
    unfold readTrackerPose at hr
    split at hr
    · simp at hr
    · rename_i hg
      split at hr
      · simp at hr
      · rename_i line rest hlines
        split at hr
        · simp at hr
        · rename_i smp2 hparse
          simp only [Prod.mk.injEq, ReadResult.ok.injEq] at hr
          obtain ⟨hsmp, hs2⟩ := hr
          simp only [shiftWindow] at hg hlines hparse
          have hgood : s.streamGood = true := by
            revert hg
            cases s.streamGood <;> simp
          subst hsmp
          subst hs2
          refine Exists.intro line (Exists.intro rest (Exists.intro smp2
            (And.intro hgood (And.intro hlines (And.intro hparse ?_)))))
          simp [updateCachedIntervalData, shiftWindow]
          exact hgood

theorem advanceTrackerData_fail_eq {s s' : MotionState}
    (h : advanceTrackerData s = some (false, s')) :
    (s.streamGood = false ∧ s' = { shiftWindow s with done_ := true }) ∨
    (s.streamGood = true ∧ s.lines = [] ∧
      s' = { shiftWindow s with
              streamGood := false, reads := s.reads + 1, done_ := true }) := by
  unfold advanceTrackerData at h
  rcases hr : readTrackerPose (shiftWindow s) with ⟨res, s2⟩
  rw [hr] at h
  cases res with
  | crash => simp at h
  | ok smp => simp at h
  | eof =>
    simp only [Option.some.injEq, Prod.mk.injEq, true_and] at h
    subst h
    unfold readTrackerPose at hr
    split at hr
    · rename_i hg
      left
      simp only [Prod.mk.injEq, true_and] at hr
      subst hr
      simp only [shiftWindow] at hg
      refine ⟨?_, rfl⟩
      simpa using hg
    · rename_i hg
      split at hr
      · rename_i hlines
        right
        simp only [Prod.mk.injEq, true_and] at hr
        subst hr
        simp only [shiftWindow] at hg hlines
        have hgood : s.streamGood = true := by
          revert hg
          cases s.streamGood <;> simp
        exact ⟨hgood, hlines, by simp [shiftWindow]⟩
      · split at hr
        · simp at hr
        · simp at hr

theorem advanceTrackerData_ok_frame {s s' : MotionState}
    (h : advanceTrackerData s = some (true, s')) :
    s'.start_ = s.end_ ∧ s'.done_ = s.done_ ∧
    s'.lines.length < s.lines.length := by
  obtain ⟨line, rest, smp, -, hlines, -, hs'⟩ := advanceTrackerData_ok_eq h
  subst hs'
  simp [hlines]

theorem advanceLoop_exit {s : MotionState} {tv : TimeValue}
    (h : trackerDataNeedsAdvancing s tv = false) :
    advanceLoop s tv = some (true, s) := by
  unfold advanceLoop
  simp [h]

theorem advanceLoop_ok_bounds_aux (n : Nat) :
    ∀ (s : MotionState) (tv : TimeValue) (s' : MotionState),
      s.lines.length ≤ n →
      advanceLoop s tv = some (true, s') →
      TimeValue.lt tv s.start_ = false →
      TimeValue.lt tv s'.start_ = false ∧ TimeValue.lt s'.end_ tv = false := by
  induction n with
  | zero =>
    intro s tv s' hlen h hpre
    unfold advanceLoop at h
    by_cases hadv : trackerDataNeedsAdvancing s tv = true
    · simp only [hadv, if_true] at h
      split at h
      · simp at h
      · simp at h
      · rename_i s1 heq
        have hframe := advanceTrackerData_ok_frame heq
        omega
    · have hb : trackerDataNeedsAdvancing s tv = false := by
        revert hadv
        cases trackerDataNeedsAdvancing s tv <;> simp
      simp only [hb, Bool.false_eq_true, if_false, Option.some.injEq,
        Prod.mk.injEq, true_and] at h
      subst h
      exact ⟨hpre, hb⟩
  | succ n ih =>
    intro s tv s' hlen h hpre
    unfold advanceLoop at h
    by_cases hadv : trackerDataNeedsAdvancing s tv = true
    · simp only [hadv, if_true] at h
      split at h
      · simp at h
      · simp at h
      · rename_i s1 heq
        have hframe := advanceTrackerData_ok_frame heq
        have hlen1 : s1.lines.length ≤ n := by omega
        have hpre1 : TimeValue.lt tv s1.start_ = false := by
          rw [hframe.1]
          exact TimeValue.lt_asymm hadv
        exact ih s1 tv s' hlen1 h hpre1
    · have hb : trackerDataNeedsAdvancing s tv = false := by
        revert hadv
        cases trackerDataNeedsAdvancing s tv <;> simp
      simp only [hb, Bool.false_eq_true, if_false, Option.some.injEq,
        Prod.mk.injEq, true_and] at h
      subst h
      exact ⟨hpre, hb⟩

theorem advanceLoop_ok_bounds {s : MotionState} {tv : TimeValue}
    {s' : MotionState}
    (h : advanceLoop s tv = some (true, s'))
    (hpre : TimeValue.lt tv s.start_ = false) :
    TimeValue.lt tv s'.start_ = false ∧ TimeValue.lt s'.end_ tv = false :=
  advanceLoop_ok_bounds_aux s.lines.length s tv s' (le_refl _) h hpre

theorem advanceTrackerData_ok_inv {s s1 : MotionState}
    (heq : advanceTrackerData s = some (true, s1))
    (hso : streamOrdered s) :
    windowInv s1 ∧ streamOrdered s1 := by
  obtain ⟨line, rest, smp, hgood, hlines, hparse, hs1⟩ :=
    advanceTrackerData_ok_eq heq
  unfold streamOrdered at hso
  rw [hlines] at hso
  unfold orderedFrom at hso
  rw [hparse] at hso
  simp only [Bool.and_eq_true, Bool.not_eq_true'] at hso
  obtain ⟨hle, hord⟩ := hso
  subst hs1
  refine ⟨⟨hle, fun _ => ⟨rfl, rfl⟩⟩, hord⟩

theorem advanceTrackerData_fail_inv {s s1 : MotionState}
    (heq : advanceTrackerData s = some (false, s1))
    (hso : streamOrdered s) :
    windowInv s1 ∧ streamOrdered s1 := by
  rcases advanceTrackerData_fail_eq heq with ⟨-, hs1⟩ | ⟨-, -, hs1⟩ <;>
    subst hs1 <;>
    exact ⟨⟨TimeValue.lt_irrefl _, fun hd => by simp [shiftWindow] at hd⟩, hso⟩

theorem advanceLoop_inv_aux (n : Nat) :
    ∀ (s : MotionState) (tv : TimeValue) (b : Bool) (s' : MotionState),
      s.lines.length ≤ n →
      advanceLoop s tv = some (b, s') →
      windowInv s → streamOrdered s →
      windowInv s' ∧ streamOrdered s' := by
  induction n with
  | zero =>
    intro s tv b s' hlen h hwi hso
    unfold advanceLoop at h
    by_cases hadv : trackerDataNeedsAdvancing s tv = true
    · simp only [hadv, if_true] at h
      split at h
      · simp at h
      · rename_i s1 heq
        simp only [Option.some.injEq, Prod.mk.injEq] at h
        obtain ⟨-, hs'⟩ := h
        subst hs'
        exact advanceTrackerData_fail_inv heq hso
      · rename_i s1 heq
        have hframe := advanceTrackerData_ok_frame heq
        omega
    · have hb : trackerDataNeedsAdvancing s tv = false := by
        revert hadv
        cases trackerDataNeedsAdvancing s tv <;> simp
      simp only [hb, Bool.false_eq_true, if_false, Option.some.injEq,
        Prod.mk.injEq] at h
      obtain ⟨-, hs'⟩ := h
      subst hs'
      exact ⟨hwi, hso⟩
  | succ n ih =>
    intro s tv b s' hlen h hwi hso
    unfold advanceLoop at h
    by_cases hadv : trackerDataNeedsAdvancing s tv = true
    · simp only [hadv, if_true] at h
      split at h
      · simp at h
      · rename_i s1 heq
        simp only [Option.some.injEq, Prod.mk.injEq] at h
        obtain ⟨-, hs'⟩ := h
        subst hs'
        exact advanceTrackerData_fail_inv heq hso
      · rename_i s1 heq
        have hframe := advanceTrackerData_ok_frame heq
        have hlen1 : s1.lines.length ≤ n := by omega
        obtain ⟨hwi1, hso1⟩ := advanceTrackerData_ok_inv heq hso
        exact ih s1 tv b s' hlen1 h hwi1 hso1
    · have hb : trackerDataNeedsAdvancing s tv = false := by
        revert hadv
        cases trackerDataNeedsAdvancing s tv <;> simp
      simp only [hb, Bool.false_eq_true, if_false, Option.some.injEq,
        Prod.mk.injEq] at h
      obtain ⟨-, hs'⟩ := h
      subst hs'
      exact ⟨hwi, hso⟩

theorem advanceLoop_inv {s : MotionState} {tv : TimeValue} {b : Bool}
    {s' : MotionState}
    (h : advanceLoop s tv = some (b, s'))
    (hwi : windowInv s) (hso : streamOrdered s) :
    windowInv s' ∧ streamOrdered s' :=
  advanceLoop_inv_aux s.lines.length s tv b s' (le_refl _) h hwi hso

theorem query_before {s : MotionState} {tv : TimeValue}
    (v : Vector3d) (r : Quaterniond)
    (h : TimeValue.lt tv s.start_ = true) :
    query s tv v r = some (Status.BeforeRecordedTrackerData, s, v, r) := by
  unfold query
  have hb : isBeforeTrackerData s tv = true := h
  simp [hb]

theorem getInterpolation_fst_true {s : MotionState} {tv : TimeValue}
    (h1 : isBeforeTrackerData s tv = false)
    (h2 : trackerDataNeedsAdvancing s tv = false)
    (v : Vector3d) (r : Quaterniond) :
    (getInterpolation s tv v r).1 = true := by
  unfold getInterpolation
  by_cases he1 : tv = s.start_
  · simp [he1]
  · by_cases he2 : tv = s.end_
    · subst he2
      by_cases h3 : s.end_ = s.start_ <;> simp [h3, h1, h2]
    · simp [he1, he2, h1, h2]

theorem getInterpolation_false_frame {s : MotionState} {tv : TimeValue}
    {v v2 : Vector3d} {r r2 : Quaterniond}
    (h : getInterpolation s tv v r = (false, v2, r2)) :
    v2 = v ∧ r2 = r := by
  unfold getInterpolation at h
  split at h
  · simp at h
  · split at h
    · simp at h
    · split at h
      · simp only [Prod.mk.injEq, true_and] at h
        exact ⟨h.1.symm, h.2.symm⟩
      · simp at h

theorem construct_two {line1 line2 : List Char} {rest : List (List Char)}
    {smp1 smp2 : Sample}
    (h1 : parseTrackerLine line1 = some smp1)
    (h2 : parseTrackerLine line2 = some smp2) :
    construct (line1 :: line2 :: rest) =
      some { lines := rest, streamGood := true, reads := 2,
             start_ := smp1.tv, startXlate_ := smp1.xlate,
             startRot_ := smp1.rot,
             end_ := smp2.tv, endXlate_ := smp2.xlate, endRot_ := smp2.rot,
             done_ := false,
             intervalDuration_ := microsecondsDifference smp2.tv smp1.tv,
             incXlate_ := Vector3d.sub smp2.xlate smp1.xlate } := by
  unfold construct readTrackerPose initState updateCachedIntervalData
  simp [h1, h2]

/-- C5: every query with a timestamp strictly before the current window's
start timestamp (in particular every query issued before the first tracker
sample, since start_ is fixed at construction) returns
BeforeRecordedTrackerData, produces no pose (the caller's out-parameters are
returned untouched), and leaves the engine state unchanged. -/
theorem C5_before_recorded (s : MotionState) (tv : TimeValue)
    (v : Vector3d) (r : Quaterniond)
    (h : TimeValue.lt tv s.start_ = true) :
    query s tv v r = some (Status.BeforeRecordedTrackerData, s, v, r) :=
  query_before v r h

theorem C5_before_recorded_witness :
    query windowState ⟨-1, 0⟩ ⟨5, 5, 5⟩ ⟨9, 9, 9, 9⟩ =
      some (Status.BeforeRecordedTrackerData, windowState,
        ⟨5, 5, 5⟩, ⟨9, 9, 9, 9⟩) :=
  C5_before_recorded windowState ⟨-1, 0⟩ ⟨5, 5, 5⟩ ⟨9, 9, 9, 9⟩ (by decide)

/-- C7: for every pair of timestamps whose true microsecond difference
(Δseconds · 1000000 + Δmicroseconds) fits in the 32-bit signed range,
microsecondsDifference computes exactly that value — the int32 narrowing of
the seconds difference and of the final sum never loses information in
range, because the narrowing is congruent modulo 2^32. -/
theorem C7_microseconds_difference_exact (a b : TimeValue)
    (h1 : -2147483648 ≤
      (a.seconds - b.seconds) * 1000000 + (a.microseconds - b.microseconds))
    (h2 : (a.seconds - b.seconds) * 1000000 +
      (a.microseconds - b.microseconds) < 2147483648) :
    microsecondsDifference a b =
      (a.seconds - b.seconds) * 1000000 + (a.microseconds - b.microseconds) :=
  microsecondsDifference_exact h1 h2

theorem C7_microseconds_difference_witness :
    microsecondsDifference ⟨1, 500000⟩ ⟨0, 0⟩ =
      ((1 : Int) - 0) * 1000000 + (500000 - 0) :=
  C7_microseconds_difference_exact ⟨1, 500000⟩ ⟨0, 0⟩ (by decide) (by decide)

/-- C3: a query timestamp equal to the window's start or end timestamp, on a
non-exhausted engine with an ordered window, returns Successful with that
keyframe's translation and rotation copied verbatim (the exact-match
branches of getInterpolation, which perform no interpolation arithmetic),
and leaves the engine state unchanged. -/
theorem C3_boundary_pose_verbatim (s : MotionState) (tv : TimeValue)
    (v : Vector3d) (r : Quaterniond)
    (hdone : s.done_ = false)
    (hord : TimeValue.lt s.end_ s.start_ = false)
    (hb : tv = s.start_ ∨ tv = s.end_) :
    query s tv v r = some (Status.Successful, s,
      (if tv = s.start_ then s.startXlate_ else s.endXlate_),
      (if tv = s.start_ then s.startRot_ else s.endRot_)) := by
  have hbefore : isBeforeTrackerData s tv = false := by
    rcases hb with hb | hb <;> subst hb
    · exact TimeValue.lt_irrefl _
    · exact hord
  have hadv : trackerDataNeedsAdvancing s tv = false := by
    rcases hb with hb | hb <;> subst hb
    · exact hord
    · exact TimeValue.lt_irrefl _
  unfold query
  rw [hbefore, advanceLoop_exit hadv]
  simp only [Bool.false_eq_true, if_false, hdone]
  unfold getInterpolation
  by_cases h1 : tv = s.start_
  · simp [h1]
  · have h2 : tv = s.end_ := by tauto
    by_cases h3 : s.end_ = s.start_ <;> simp [h1, h2, h3]

theorem C3_boundary_pose_witness :
    query windowState ⟨0, 500000⟩ ⟨5, 5, 5⟩ ⟨9, 9, 9, 9⟩ =
      some (Status.Successful, windowState,
        (if (⟨0, 500000⟩ : TimeValue) = windowState.start_ then
          windowState.startXlate_ else windowState.endXlate_),
        (if (⟨0, 500000⟩ : TimeValue) = windowState.start_ then
          windowState.startRot_ else windowState.endRot_)) :=
  C3_boundary_pose_verbatim windowState ⟨0, 500000⟩ ⟨5, 5, 5⟩ ⟨9, 9, 9, 9⟩
    rfl (by decide) (Or.inr (by decide))

/-- C2: a query timestamp strictly inside the window of a non-exhausted
engine with fresh cached interval data returns Successful, and the
translation out-parameter equals start.position + t · (end.position −
start.position), where t is the signed integer microsecond offset of the
query divided by the signed integer window span, both converted to a ratio
only at the division — provided both integer differences are in the 32-bit
range in which microsecondsDifference is exact. -/
theorem C2_interior_lerp (s : MotionState) (tv : TimeValue)
    (v : Vector3d) (r : Quaterniond)
    (hdone : s.done_ = false)
    (h1 : TimeValue.lt s.start_ tv = true)
    (h2 : TimeValue.lt tv s.end_ = true)
    (hcd : s.intervalDuration_ = microsecondsDifference s.end_ s.start_)
    (hcx : s.incXlate_ = Vector3d.sub s.endXlate_ s.startXlate_)
    (hr1 : -2147483648 ≤ specMicrosecondsDifference tv s.start_)
    (hr2 : specMicrosecondsDifference tv s.start_ < 2147483648)
    (hr3 : -2147483648 ≤ specMicrosecondsDifference s.end_ s.start_)
    (hr4 : specMicrosecondsDifference s.end_ s.start_ < 2147483648) :
    ∃ rt : Quaterniond, query s tv v r = some (Status.Successful, s,
      Vector3d.add s.startXlate_ (Vector3d.smul
        ((specMicrosecondsDifference tv s.start_ : ℚ) /
          (specMicrosecondsDifference s.end_ s.start_ : ℚ))
        (Vector3d.sub s.endXlate_ s.startXlate_)), rt) := by
  have hbefore : isBeforeTrackerData s tv = false := TimeValue.lt_asymm h1
  have hadv : trackerDataNeedsAdvancing s tv = false := TimeValue.lt_asymm h2
  have hne1 : tv ≠ s.start_ := TimeValue.lt_ne' h1
  have hne2 : tv ≠ s.end_ := TimeValue.lt_ne h2
  refine ⟨s.startRot_, ?_⟩
  unfold query
  rw [hbefore, advanceLoop_exit hadv]
  simp only [Bool.false_eq_true, if_false, hdone]
  unfold getInterpolation
  rw [if_neg hne1, if_neg hne2, hbefore, hadv]
  simp only [Bool.or_self, Bool.false_eq_true, if_false]
  rw [hcx, hcd, microsecondsDifference_exact hr1 hr2,
    microsecondsDifference_exact hr3 hr4]

/-- C8: no call to query can return OtherUnexpectedFailure (here proved for
every engine state and query timestamp, preconditions or not): whenever
control reaches getInterpolation, the advance loop has already established
start_.timestamp ≤ timestamp ≤ end_.timestamp, so the defensive
cannot-interpolate branch is unreachable. -/
theorem C8_no_unexpected_failure (s : MotionState) (tv : TimeValue)
    (v : Vector3d) (r : Quaterniond) (st : Status) (s' : MotionState)
    (v' : Vector3d) (r' : Quaterniond)
    (h : query s tv v r = some (st, s', v', r')) :
    st ≠ Status.OtherUnexpectedFailure := by
  unfold query at h
  by_cases hbef : isBeforeTrackerData s tv = true
  · rw [hbef] at h
    simp only [if_true, Option.some.injEq, Prod.mk.injEq] at h
    obtain ⟨hst, -⟩ := h
    subst hst
    simp
  · have hbef' : isBeforeTrackerData s tv = false := by
      revert hbef
      cases isBeforeTrackerData s tv <;> simp
    rw [hbef'] at h
    simp only [Bool.false_eq_true, if_false] at h
    split at h
    · simp at h
    · rename_i s1 hloop
      simp only [Option.some.injEq, Prod.mk.injEq] at h
      obtain ⟨hst, -⟩ := h
      subst hst
      simp
    · rename_i s1 hloop
      by_cases hd : s1.done_ = true
      · rw [hd] at h
        simp only [if_true, Option.some.injEq, Prod.mk.injEq] at h
        obtain ⟨hst, -⟩ := h
        subst hst
        simp
      · have hd' : s1.done_ = false := by
          revert hd
          cases s1.done_ <;> simp
        rw [hd'] at h
        simp only [Bool.false_eq_true, if_false] at h
        obtain ⟨hb1, hb2⟩ := advanceLoop_ok_bounds hloop hbef'
        have hgi := getInterpolation_fst_true hb1 hb2 v r
        rcases hgie : getInterpolation s1 tv v r with ⟨b, v2, r2⟩
        rw [hgie] at h
        rw [hgie] at hgi
        simp only at hgi
        subst hgi
        simp only [Option.some.injEq, Prod.mk.injEq] at h
        obtain ⟨hst, -⟩ := h
        subst hst
        simp

theorem C8_no_unexpected_failure_witness :
    Status.BeforeRecordedTrackerData ≠ Status.OtherUnexpectedFailure :=
  C8_no_unexpected_failure windowState ⟨-1, 0⟩ ⟨5, 5, 5⟩ ⟨9, 9, 9, 9⟩
    Status.BeforeRecordedTrackerData windowState ⟨5, 5, 5⟩ ⟨9, 9, 9, 9⟩
    (query_before ⟨5, 5, 5⟩ ⟨9, 9, 9, 9⟩ (by decide))

/-- C10: every call to query that returns a status other than Successful
(BeforeRecordedTrackerData, OutOfData, or the defensive
OtherUnexpectedFailure) leaves the caller's translation and rotation
out-parameters exactly as they were passed in. -/
theorem C10_out_params_unchanged (s : MotionState) (tv : TimeValue)
    (v : Vector3d) (r : Quaterniond) (st : Status) (s' : MotionState)
    (v' : Vector3d) (r' : Quaterniond)
    (h : query s tv v r = some (st, s', v', r'))
    (hst : st ≠ Status.Successful) :
    v' = v ∧ r' = r := by
  unfold query at h
  by_cases hbef : isBeforeTrackerData s tv = true
  · rw [hbef] at h
    simp only [if_true, Option.some.injEq, Prod.mk.injEq] at h
    obtain ⟨-, -, hv, hr⟩ := h
    exact ⟨hv.symm, hr.symm⟩
  · have hbef' : isBeforeTrackerData s tv = false := by
      revert hbef
      cases isBeforeTrackerData s tv <;> simp
    rw [hbef'] at h
    simp only [Bool.false_eq_true, if_false] at h
    split at h
    · simp at h
    · rename_i s1 hloop
      simp only [Option.some.injEq, Prod.mk.injEq] at h
      obtain ⟨-, -, hv, hr⟩ := h
      exact ⟨hv.symm, hr.symm⟩
    · rename_i s1 hloop
      by_cases hd : s1.done_ = true
      · rw [hd] at h
        simp only [if_true, Option.some.injEq, Prod.mk.injEq] at h
        obtain ⟨-, -, hv, hr⟩ := h
        exact ⟨hv.symm, hr.symm⟩
      · have hd' : s1.done_ = false := by
          revert hd
          cases s1.done_ <;> simp
        rw [hd'] at h
        simp only [Bool.false_eq_true, if_false] at h
        rcases hgie : getInterpolation s1 tv v r with ⟨b, v2, r2⟩
        rw [hgie] at h
        cases b
        · simp only [Option.some.injEq, Prod.mk.injEq] at h
          obtain ⟨-, -, hv, hr⟩ := h
          obtain ⟨hv2, hr2⟩ := getInterpolation_false_frame hgie
          exact ⟨hv ▸ hv2, hr ▸ hr2⟩
        · simp only [Option.some.injEq, Prod.mk.injEq] at h
          obtain ⟨hstx, -⟩ := h
          subst hstx
          exact absurd rfl hst

theorem C10_out_params_unchanged_witness :
    (⟨5, 5, 5⟩ : Vector3d) = ⟨5, 5, 5⟩ ∧
    (⟨9, 9, 9, 9⟩ : Quaterniond) = ⟨9, 9, 9, 9⟩ :=
  C10_out_params_unchanged windowState ⟨-1, 0⟩ ⟨5, 5, 5⟩ ⟨9, 9, 9, 9⟩
    Status.BeforeRecordedTrackerData windowState ⟨5, 5, 5⟩ ⟨9, 9, 9, 9⟩
    (query_before ⟨5, 5, 5⟩ ⟨9, 9, 9, 9⟩ (by decide)) (by decide)

/-- C4: once the tracker stream yields no further record the engine is
exhausted, and exhaustion is terminal.  First part: the exhausting query
itself (stream still good but no line left) makes one final failing getline,
fails the stream, sets done_, and returns OutOfData.  Second part: with the
stream failed, every query beyond the window end returns OutOfData, leaves
done_ set, the stream failed and the window end in place, and — visible in
the returned state, whose read counter is untouched — never attempts
another read from the tracker record source. -/
theorem C4_exhaustion_terminal :
    (∀ (s : MotionState) (tv : TimeValue) (v : Vector3d) (r : Quaterniond),
      s.streamGood = true → s.lines = [] →
      TimeValue.lt tv s.start_ = false → TimeValue.lt s.end_ tv = true →
      query s tv v r = some (Status.OutOfData,
        { shiftWindow s with
            streamGood := false, reads := s.reads + 1, done_ := true },
        v, r)) ∧
    (∀ (s : MotionState) (tv : TimeValue) (v : Vector3d) (r : Quaterniond),
      s.streamGood = false →
      TimeValue.lt tv s.start_ = false → TimeValue.lt s.end_ tv = true →
      query s tv v r = some (Status.OutOfData,
        { shiftWindow s with done_ := true }, v, r)) := by
  constructor
  · intro s tv v r hsg hlines hbef hadv
    have hone : advanceTrackerData s = some (false,
        { shiftWindow s with
            streamGood := false, reads := s.reads + 1, done_ := true }) := by
      unfold advanceTrackerData readTrackerPose
      simp [shiftWindow, hsg, hlines]
    have hloop : advanceLoop s tv = some (false,
        { shiftWindow s with
            streamGood := false, reads := s.reads + 1, done_ := true }) := by
      unfold advanceLoop
      simp only [show trackerDataNeedsAdvancing s tv = true from hadv,
        if_true]
      split
      · rename_i heq
        rw [hone] at heq
        simp at heq
      · rename_i s1 heq
        rw [hone] at heq
        simp only [Option.some.injEq, Prod.mk.injEq, true_and] at heq
        rw [heq]
      · rename_i s1 heq
        rw [hone] at heq
        simp at heq
    unfold query
    rw [show isBeforeTrackerData s tv = false from hbef]
    simp only [Bool.false_eq_true, if_false]
    rw [hloop]
  · intro s tv v r hsg hbef hadv
    have hone : advanceTrackerData s = some (false,
        { shiftWindow s with done_ := true }) := by
      unfold advanceTrackerData readTrackerPose
      simp [shiftWindow, hsg]
    have hloop : advanceLoop s tv = some (false,
        { shiftWindow s with done_ := true }) := by
      unfold advanceLoop
      simp only [show trackerDataNeedsAdvancing s tv = true from hadv,
        if_true]
      split
      · rename_i heq
        rw [hone] at heq
        simp at heq
      · rename_i s1 heq
        rw [hone] at heq
        simp only [Option.some.injEq, Prod.mk.injEq, true_and] at heq
        rw [heq]
      · rename_i s1 heq
        rw [hone] at heq
        simp at heq
    unfold query
    rw [show isBeforeTrackerData s tv = false from hbef]
    simp only [Bool.false_eq_true, if_false]
    rw [hloop]

theorem C4_exhaustion_terminal_witness :
    query exampleState ⟨2, 0⟩ ⟨5, 5, 5⟩ ⟨9, 9, 9, 9⟩ =
      some (Status.OutOfData,
        { shiftWindow exampleState with
            streamGood := false, reads := exampleState.reads + 1,
            done_ := true },
        ⟨5, 5, 5⟩, ⟨9, 9, 9, 9⟩) ∧
    query exhaustedState ⟨3, 0⟩ ⟨5, 5, 5⟩ ⟨9, 9, 9, 9⟩ =
      some (Status.OutOfData,
        { shiftWindow exhaustedState with done_ := true },
        ⟨5, 5, 5⟩, ⟨9, 9, 9, 9⟩) :=
  ⟨C4_exhaustion_terminal.1 exampleState ⟨2, 0⟩ ⟨5, 5, 5⟩ ⟨9, 9, 9, 9⟩
      rfl rfl (by decide) (by decide),
    C4_exhaustion_terminal.2 exhaustedState ⟨3, 0⟩ ⟨5, 5, 5⟩ ⟨9, 9, 9, 9⟩
      rfl (by decide) (by decide)⟩

theorem C2_interior_lerp_witness :
    ∃ rt : Quaterniond,
      query windowState ⟨0, 250000⟩ ⟨5, 5, 5⟩ ⟨9, 9, 9, 9⟩ =
        some (Status.Successful, windowState,
          Vector3d.add windowState.startXlate_ (Vector3d.smul
            ((specMicrosecondsDifference ⟨0, 250000⟩ windowState.start_ : ℚ) /
              (specMicrosecondsDifference windowState.end_
                windowState.start_ : ℚ))
            (Vector3d.sub windowState.endXlate_ windowState.startXlate_)),
          rt) :=
  C2_interior_lerp windowState ⟨0, 250000⟩ ⟨5, 5, 5⟩ ⟨9, 9, 9, 9⟩ rfl
    (by decide) (by decide) (by decide)
    (by simp [windowState, Vector3d.sub]) (by decide) (by decide)
    (by decide) (by decide)

/-- C9: assuming a parsed, timestamp-ordered tracker stream, successful
construction establishes the state invariant — start_.timestamp ≤
end_.timestamp, and, in every state in which the interpolation path can read
them (done_ = false), the cached span and translation delta equal the values
recomputed from the current keyframes — and every query that returns
preserves it, failed advances included (after a failed advance done_ is set,
so the cache can no longer be read). -/
theorem C9_invariants :
    (∀ (lines : List (List Char)) (s0 : MotionState),
      linesOrdered lines = true → construct lines = some s0 →
      windowInv s0 ∧ streamOrdered s0) ∧
    (∀ (s : MotionState) (tv : TimeValue) (v : Vector3d) (r : Quaterniond)
      (st : Status) (s' : MotionState) (v' : Vector3d) (r' : Quaterniond),
      windowInv s → streamOrdered s →
      query s tv v r = some (st, s', v', r') →
      windowInv s' ∧ streamOrdered s') := by
  constructor
  · intro lines s0 hord hc
    rcases lines with _ | ⟨line1, rest1⟩
    · simp [construct, readTrackerPose, initState] at hc
    · rcases hp1 : parseTrackerLine line1 with _ | smp1
      · rw [show linesOrdered (line1 :: rest1) =
            (match parseTrackerLine line1 with
              | none => false
              | some smp => orderedFrom smp.tv rest1) from rfl, hp1] at hord
        simp at hord
      · rcases rest1 with _ | ⟨line2, rest2⟩
        · simp [construct, readTrackerPose, initState, hp1] at hc
        · rcases hp2 : parseTrackerLine line2 with _ | smp2
          · simp only [linesOrdered, orderedFrom, hp1, hp2] at hord
            simp at hord
          · rw [construct_two hp1 hp2] at hc
            simp only [Option.some.injEq] at hc
            subst hc
            simp only [linesOrdered, orderedFrom, hp1, hp2,
              Bool.and_eq_true, Bool.not_eq_true'] at hord
            obtain ⟨hle, hrest⟩ := hord
            exact ⟨⟨hle, fun _ => ⟨rfl, rfl⟩⟩, hrest⟩
  · intro s tv v r st s' v' r' hwi hso h
    unfold query at h
    by_cases hbef : isBeforeTrackerData s tv = true
    · rw [hbef] at h
      simp only [if_true, Option.some.injEq, Prod.mk.injEq] at h
      obtain ⟨-, hs, -, -⟩ := h
      subst hs
      exact ⟨hwi, hso⟩
    · have hbef' : isBeforeTrackerData s tv = false := by
        revert hbef
        cases isBeforeTrackerData s tv <;> simp
      rw [hbef'] at h
      simp only [Bool.false_eq_true, if_false] at h
      split at h
      · simp at h
      · rename_i s1 hloop
        simp only [Option.some.injEq, Prod.mk.injEq] at h
        obtain ⟨-, hs, -, -⟩ := h
        subst hs
        exact advanceLoop_inv hloop hwi hso
      · rename_i s1 hloop
        have hinv := advanceLoop_inv hloop hwi hso
        by_cases hd : s1.done_ = true
        · rw [hd] at h
          simp only [if_true, Option.some.injEq, Prod.mk.injEq] at h
          obtain ⟨-, hs, -, -⟩ := h
          subst hs
          exact hinv
        · have hd' : s1.done_ = false := by
            revert hd
            cases s1.done_ <;> simp
          rw [hd'] at h
          simp only [Bool.false_eq_true, if_false] at h
          rcases hgie : getInterpolation s1 tv v r with ⟨b, v2, r2⟩
          rw [hgie] at h
          cases b <;>
          · simp only [Option.some.injEq, Prod.mk.injEq] at h
            obtain ⟨-, hs, -, -⟩ := h
            subst hs
            exact hinv

theorem construct_exampleLines : construct exampleLines = some exampleState := by
  have hp1 : parseTrackerLine trackerLine1 =
      some ⟨⟨0, 0⟩, ⟨0, 0, 0⟩, ⟨1, 0, 0, 0⟩⟩ := by decide
  have hp2 : parseTrackerLine trackerLine2 =
      some ⟨⟨1, 0⟩, ⟨1, 0, 0⟩, ⟨0, 1, 0, 0⟩⟩ := by decide
  have hmd : microsecondsDifference ⟨1, 0⟩ ⟨0, 0⟩ = 1000000 := by decide
  rw [show exampleLines = [trackerLine1, trackerLine2] from rfl,
    construct_two hp1 hp2]
  simp only [Option.some.injEq, exampleState, hmd]
  norm_num [Vector3d.sub]

theorem C9_invariants_witness :
    (windowInv exampleState ∧ streamOrdered exampleState) ∧
    (windowInv windowState ∧ streamOrdered windowState) :=
  ⟨C9_invariants.1 exampleLines exampleState (by decide) construct_exampleLines,
    C9_invariants.2 windowState ⟨-1, 0⟩ ⟨5, 5, 5⟩ ⟨9, 9, 9, 9⟩
      Status.BeforeRecordedTrackerData windowState ⟨5, 5, 5⟩ ⟨9, 9, 9, 9⟩
      ⟨by decide, fun _ => ⟨by decide, by simp [windowState, Vector3d.sub]⟩⟩
      rfl
      (query_before ⟨5, 5, 5⟩ ⟨9, 9, 9, 9⟩ (by decide))⟩

/-- C1: the orientation interpolation is broken in the source — line 251 of
main.cpp calls Eigen's const slerp and discards its result, so for a query
midway between two keyframes whose orientations are orthogonal unit
quaternions the engine reports Successful but returns the start orientation
unchanged (inner product 1 with the start orientation, 0 with the end
orientation) instead of the spec's shortest-arc interpolation, which at
t = 0.5 has equal positive inner products with both endpoints. -/
theorem C1_slerp_discarded :
    construct exampleLines = some exampleState ∧
    query exampleState ⟨0, 500000⟩ ⟨5, 5, 5⟩ ⟨9, 9, 9, 9⟩ =
      some (Status.Successful, exampleState, ⟨1/2, 0, 0⟩, ⟨1, 0, 0, 0⟩) ∧
    exampleState.startRot_ = ⟨1, 0, 0, 0⟩ ∧
    quatDot ⟨1, 0, 0, 0⟩ exampleState.startRot_ = 1 ∧
    quatDot ⟨1, 0, 0, 0⟩ exampleState.endRot_ = 0 := by
  refine ⟨construct_exampleLines, ?_, rfl, by norm_num [quatDot, exampleState],
    by norm_num [quatDot, exampleState]⟩
  unfold query
  rw [show isBeforeTrackerData exampleState ⟨0, 500000⟩ = false by decide,
    advanceLoop_exit (by decide)]
  simp only [Bool.false_eq_true, if_false,
    show exampleState.done_ = false from rfl]
  unfold getInterpolation
  rw [if_neg (by decide : ¬(⟨0, 500000⟩ : TimeValue) = exampleState.start_),
    if_neg (by decide : ¬(⟨0, 500000⟩ : TimeValue) = exampleState.end_)]
  rw [show (isBeforeTrackerData exampleState ⟨0, 500000⟩ ||
    trackerDataNeedsAdvancing exampleState ⟨0, 500000⟩) = false by decide]
  simp only [Bool.false_eq_true, if_false]
  have hmd : microsecondsDifference ⟨0, 500000⟩ exampleState.start_ =
      500000 := by decide
  rw [hmd]
  norm_num [exampleState, Vector3d.add, Vector3d.smul]

/-- C6: the Reader does not return a clean none on a record that tokenizes
into fewer than the required 9 fields — readTrackerPose never checks the
field count, so a short record (here "1,2,3", 3 fields) drives the field
extraction into out-of-bounds vector indexing (undefined behaviour, the
crash result of the model), which is not the eof result that a genuinely
exhausted source produces. -/
theorem C6_short_record_not_eof :
    (getFields shortLine 9).length = 3 ∧
    parseTrackerLine shortLine = none ∧
    (readTrackerPose (initState [shortLine])).1 = ReadResult.crash ∧
    (readTrackerPose (initState [])).1 = ReadResult.eof := by
  refine ⟨by decide, by decide, by decide, by decide⟩

end MotionInterpolator
